import Mathlib

/-!
Shallow embedding of the geospatial correlation engine of `main.py`
(gravl-route-fastapi): the county dataset, the point-in-polygon and
line-polygon predicates, the centroid-projection ordering, and the three
endpoint handlers `process_polyline`, `process_polylines_batch` and
`get_county_from_point`.

Coordinates are modelled as exact rationals (the source computes with IEEE
doubles through shapely/GEOS; on the small integer-valued inputs used in the
concrete theorems below the two agree).  Geometries in the dataset are in
EPSG:4326, where a shapely coordinate pair is (x, y) = (longitude, latitude);
the `to_crs("EPSG:4326")` normalization of the source is absorbed into the
dataset value.  County polygons are modelled by their outer ring, stored
without the repeated closing vertex.
-/

namespace GravlRoute

/-- A coordinate pair, in the axis order in which it is handed to shapely. -/
abbrev Coord := ℚ × ℚ

/-- The outer ring of a county polygon (implicitly closed: there is an edge
from the last vertex back to the first). -/
abbrev LinearRing := List Coord

/-- One row of the counties GeoDataFrame: the FIPS attribute, the remaining
attribute columns (used for name resolution), and the polygon geometry. -/
structure County where
  fips : String
  attrs : List (String × String)
  poly : LinearRing
deriving DecidableEq, Repr

/-- The parsed, normalized content of a counties shapefile
(`gpd.read_file(...).to_crs("EPSG:4326")`). -/
abbrev Dataset := List County

/-- The process state: `counties_file` is the current content of
`./data/us_counties/us_counties.shp`, and `counties_gdf` is the module-level
GeoDataFrame read from that file once at import time (main.py line 26). -/
structure ServerState where
  counties_file : Dataset
  counties_gdf : Dataset
deriving DecidableEq, Repr

/-- The per-request `gpd.read_file('./data/us_counties/us_counties.shp')`
followed by `to_crs("EPSG:4326")` of main.py lines 52-53: it yields the
current file content, not the import-time snapshot. -/
def read_counties_file (s : ServerState) : Dataset :=
  s.counties_file

/-! ## Exact geometric predicates (the GEOS operations used by the source) -/

/-- Twice the signed area of the triangle p q r; sign gives orientation. -/
def orient2d (p q r : Coord) : ℚ :=
  (q.1 - p.1) * (r.2 - p.2) - (q.2 - p.2) * (r.1 - p.1)

/-- Whether point p lies on the closed segment from a to b. -/
def onSegment (a b p : Coord) : Bool :=
  decide (orient2d a b p = 0 ∧
    min a.1 b.1 ≤ p.1 ∧ p.1 ≤ max a.1 b.1 ∧
    min a.2 b.2 ≤ p.2 ∧ p.2 ≤ max a.2 b.2)

/-- Whether the closed segments p1-p2 and q1-q2 intersect (proper crossing,
or an endpoint of one lying on the other; degenerate segments included). -/
def segsIntersect (p1 p2 q1 q2 : Coord) : Bool :=
  let d1 := orient2d q1 q2 p1
  let d2 := orient2d q1 q2 p2
  let d3 := orient2d p1 p2 q1
  let d4 := orient2d p1 p2 q2
  if d1 * d2 < 0 ∧ d3 * d4 < 0 then true
  else onSegment q1 q2 p1 || onSegment q1 q2 p2 ||
       onSegment p1 p2 q1 || onSegment p1 p2 q2

/-- The edges of a ring, closing the last vertex back to the first. -/
def ringEdges (r : LinearRing) : List (Coord × Coord) :=
  r.zip (r.rotate 1)

/-- The edges of an open path (consecutive vertex pairs of a LineString). -/
def pathEdges (l : List Coord) : List (Coord × Coord) :=
  l.zip l.tail

/-- Whether the horizontal ray from p towards +x crosses the edge a-b,
with the standard half-open rule at the endpoints. -/
def crossesRay (p a b : Coord) : Bool :=
  decide ((((a.2 ≤ p.2 ∧ p.2 < b.2) ∨ (b.2 ≤ p.2 ∧ p.2 < a.2)) ∧
    p.1 < a.1 + (p.2 - a.2) / (b.2 - a.2) * (b.1 - a.1)))

/-- Even-odd ray-casting parity: true when p is interior to the ring,
for points not on the ring itself. -/
def evenOddInside (r : LinearRing) (p : Coord) : Bool :=
  (ringEdges r).foldl (fun b e => if crossesRay p e.1 e.2 then !b else b) false

/-- Whether p lies exactly on the boundary of the ring. -/
def onRing (r : LinearRing) (p : Coord) : Bool :=
  (ringEdges r).any (fun e => onSegment e.1 e.2 p)

/-- GEOS `contains` for a point in a polygon: the point must be in the
interior, so boundary points are excluded. -/
def polyContains (r : LinearRing) (p : Coord) : Bool :=
  !onRing r p && evenOddInside r p

/-- Membership in the closed polygon (interior or boundary); this is the
point case of GEOS `intersects`. -/
def pointInOrOn (r : LinearRing) (p : Coord) : Bool :=
  onRing r p || evenOddInside r p

/-- GEOS `intersects` between a LineString and a polygon: some vertex of the
line lies in the closed polygon, or some line segment meets some ring edge. -/
def lineIntersectsPoly (line : List Coord) (r : LinearRing) : Bool :=
  line.any (fun v => pointInOrOn r v) ||
  (pathEdges line).any (fun s => (ringEdges r).any
    (fun e => segsIntersect s.1 s.2 e.1 e.2))

/-! ## Centroid and arc-length projection (shapely `centroid`, `project`) -/

/-- Twice the signed area of the ring (shoelace sum). -/
def ringArea2 (r : LinearRing) : ℚ :=
  ((ringEdges r).map (fun e => e.1.1 * e.2.2 - e.2.1 * e.1.2)).sum

/-- The centroid of the polygon bounded by the ring (standard shoelace
centroid; rational division, with the degenerate zero-area case following
the ℚ convention of division by zero). -/
def ringCentroid (r : LinearRing) : Coord :=
  let a2 := ringArea2 r
  ( ((ringEdges r).map
      (fun e => (e.1.1 + e.2.1) * (e.1.1 * e.2.2 - e.2.1 * e.1.2))).sum / (3 * a2),
    ((ringEdges r).map
      (fun e => (e.1.2 + e.2.2) * (e.1.1 * e.2.2 - e.2.1 * e.1.2))).sum / (3 * a2) )

/-- Squared Euclidean length of the segment a-b. -/
def segLen2 (a b : Coord) : ℚ :=
  (b.1 - a.1) ^ 2 + (b.2 - a.2) ^ 2

/-- Squared Euclidean distance between two points. -/
def dist2 (a b : Coord) : ℚ :=
  segLen2 a b

/-- Newton iteration for a rational square-root approximation. -/
def newtonSqrt : Nat → ℚ → ℚ → ℚ
  | 0, _, x => x
  | k + 1, q, x => newtonSqrt k q ((x + q / x) / 2)

/-- Square root over ℚ, exact on perfect-square rationals and a fixed-depth
Newton approximation otherwise.  This models the binary floating-point
square root of the source, which is itself exact on the perfect squares
arising in the concrete inputs below. -/
def ratSqrt (q : ℚ) : ℚ :=
  if q ≤ 0 then 0
  else
    let n := q.num.toNat
    let d := q.den
    if Nat.sqrt n * Nat.sqrt n = n ∧ Nat.sqrt d * Nat.sqrt d = d then
      (Nat.sqrt n : ℚ) / (Nat.sqrt d : ℚ)
    else newtonSqrt 6 q q

/-- The clamped parameter of the perpendicular projection of p onto the
segment a-b (0 at a, 1 at b; 0 on a degenerate segment). -/
def segClampT (a b p : Coord) : ℚ :=
  let l2 := segLen2 a b
  if l2 = 0 then 0
  else max 0 (min 1 (((p.1 - a.1) * (b.1 - a.1) + (p.2 - a.2) * (b.2 - a.2)) / l2))

/-- The point at parameter t along the segment a-b. -/
def segPointAt (a b : Coord) (t : ℚ) : Coord :=
  (a.1 + t * (b.1 - a.1), a.2 + t * (b.2 - a.2))

/-- shapely `line.project(p)`: the arc-length position along the line of the
point of the line nearest to p, scanning segments in order and keeping the
first minimum. -/
def lineProject (line : List Coord) (p : Coord) : ℚ :=
  let step := fun (acc : ℚ × Option (ℚ × ℚ)) (e : Coord × Coord) =>
    let t := segClampT e.1 e.2 p
    let q := segPointAt e.1 e.2 t
    let d2 := dist2 p q
    let len := ratSqrt (segLen2 e.1 e.2)
    let pos := acc.1 + t * len
    let best :=
      match acc.2 with
      | none => some (d2, pos)
      | some (bd, bp) => if d2 < bd then some (d2, pos) else some (bd, bp)
    (acc.1 + len, best)
  (((pathEdges line).foldl step (0, none)).2.elim 0 (fun b => b.2))

/-! ## The endpoint pipeline -/

/-- The failure mode of `shapely.geometry.LineString`: a coordinate array
with exactly one element raises (GEOS: point array must contain 0 or more
than 1 elements); the empty array yields an empty LineString. -/
inductive GeomError where
  | single_point_linestring
deriving DecidableEq, Repr

/-- `LineString(decoded_path)` of main.py lines 48 and 74. -/
def mkLineString (coords : List Coord) : Except GeomError (List Coord) :=
  if coords.length = 1 then .error .single_point_linestring
  else .ok coords

/-- Insert an element into a key-sorted list of (county, ordering key)
pairs, before the first strictly larger key. -/
def orderedInsertKey (x : County × ℚ) : List (County × ℚ) → List (County × ℚ)
  | [] => [x]
  | y :: ys => if x.2 ≤ y.2 then x :: y :: ys else y :: orderedInsertKey x ys

/-- The `sort_values("intersection_order")` step: sorts the joined rows
ascending by ordering key.  The source uses the pandas default sort kind
(quicksort), which fixes only the ascending key order; this executable
representative realizes one admissible permutation. -/
def sortByKey : List (County × ℚ) → List (County × ℚ)
  | [] => []
  | x :: xs => orderedInsertKey x (sortByKey xs)

/-- The body shared by main.py lines 56-63 and 77-85 once the LineString is
built and the dataset chosen: the `sjoin` with predicate `intersects`
(keeping the left row order of the counties frame), the
`line.project(county.centroid)` ordering key, the sort, and the extraction
of the `FIPS` column. -/
def correlate_core (counties : Dataset) (line : List Coord) : List String :=
  let intersected_counties := counties.filter (fun c => lineIntersectsPoly line c.poly)
  let keyed := intersected_counties.map
    (fun c => (c, lineProject line (ringCentroid c.poly)))
  let sorted_counties := sortByKey keyed
  sorted_counties.map (fun ck => ck.1.fips)

/-- The `/process_polyline/` handler (main.py lines 42-65).  The input pairs
are destructured as `(lat, lng)` and rebuilt as `(lat, lng)` tuples, so the
path coordinates are (x, y) = (latitude, longitude); the counties frame is
re-read from the shapefile on every request (lines 52-53). -/
def process_polyline (s : ServerState) (polyline : List Coord) :
    Except GeomError (List String) :=
  let decoded_path := polyline.map (fun q => (q.1, q.2))
  match mkLineString decoded_path with
  | .error e => .error e
  | .ok line =>
    let counties := read_counties_file s
    .ok (correlate_core counties line)

/-- The inner `process_single_polyline` of the batch handler (main.py lines
71-85): the same pipeline, but over the module-level `counties_gdf` global
rather than a fresh file read. -/
def process_single_polyline (s : ServerState) (polyline : List Coord) :
    Except GeomError (List String) :=
  let decoded_path := polyline.map (fun q => (q.1, q.2))
  match mkLineString decoded_path with
  | .error e => .error e
  | .ok line =>
    .ok (correlate_core s.counties_gdf line)

/-- The `/process_polylines_batch/` handler (main.py lines 67-90): a plain
loop over the polylines with no per-item exception handling, so the first
failing item propagates and the partial results are discarded. -/
def process_polylines_batch (s : ServerState) :
    List (List Coord) → Except GeomError (List (List String))
  | [] => .ok []
  | p :: ps =>
    match process_single_polyline s p with
    | .error e => .error e
    | .ok r =>
      match process_polylines_batch s ps with
      | .error e => .error e
      | .ok rs => .ok (r :: rs)

/-- Python `str.zfill`: left-pad with zeros to the given width, keeping a
leading sign character in front of the padding. -/
def zfill (width : Nat) (s : String) : String :=
  match s.data with
  | [] => ⟨List.replicate width '0'⟩
  | c :: rest =>
    if c = '+' ∨ c = '-' then
      ⟨c :: (List.replicate (width - s.length) '0' ++ rest)⟩
    else
      ⟨List.replicate (width - s.length) '0' ++ c :: rest⟩

/-- Column lookup in the attribute table of a row. -/
def getAttr (attrs : List (String × String)) (k : String) : Option String :=
  (attrs.find? (fun kv => kv.1 = k)).map (fun kv => kv.2)

/-- The name-resolution cascade of main.py lines 112-118: probe `NAME`,
then `COUNTYNAME`, then `County_Nam`, first present wins. -/
def resolveName (attrs : List (String × String)) : Option String :=
  match getAttr attrs "NAME" with
  | some n => some n
  | none =>
    match getAttr attrs "COUNTYNAME" with
    | some n => some n
    | none => getAttr attrs "County_Nam"

/-- The `/get_county_from_point/` handler (main.py lines 92-123): builds
`Point(lng, lat)`, filters the import-time `counties_gdf` by interior
containment, and returns `None`/`None` on no match, else the first match
with its FIPS value zero-filled to width 5. -/
def get_county_from_point (s : ServerState) (lat lng : ℚ) :
    Option (String × Option String) :=
  let point : Coord := (lng, lat)
  match s.counties_gdf.filter (fun c => polyContains c.poly point) with
  | [] => none
  | m :: _ => some (zfill 5 m.fips, resolveName m.attrs)

/-! ## Concrete fixtures used by the closed theorems -/

/-- The unit square, as an outer ring. -/
def unitSquare : LinearRing := [(0, 0), (1, 0), (1, 1), (0, 1)]

/-- A square county spanning longitude 10..11, latitude 0..1. -/
def countyEast : County := ⟨"10001", [], [(10, 0), (11, 0), (11, 1), (10, 1)]⟩

/-- A county over the unit square with FIPS 06075. -/
def countySF : County := ⟨"06075", [], unitSquare⟩

/-- A county over the unit square with FIPS 31001. -/
def countyNE : County := ⟨"31001", [], unitSquare⟩

/-- Two adjacent square counties sharing the border x = 1. -/
def countyLeft : County := ⟨"20001", [], unitSquare⟩

/-- The right neighbour of `countyLeft`, sharing the edge from (1,0) to (1,1). -/
def countyRight : County := ⟨"20003", [], [(1, 0), (2, 0), (2, 1), (1, 1)]⟩

/-- A state whose file and loaded dataset are both empty. -/
def sEmpty : ServerState := ⟨[], []⟩

/-- A state where file and loaded dataset agree on the single county `countyNE`. -/
def sNE : ServerState := ⟨[countyNE], [countyNE]⟩

/-- A state where file and loaded dataset agree on the single county `countyEast`. -/
def sEast : ServerState := ⟨[countyEast], [countyEast]⟩

/-- A state whose import-time snapshot holds `countySF` but whose shapefile
has since been replaced by an empty dataset. -/
def sStale : ServerState := ⟨[], [countySF]⟩

/-- A state holding the two adjacent counties `countyLeft` and `countyRight`. -/
def sBorder : ServerState := ⟨[countyLeft, countyRight], [countyLeft, countyRight]⟩

/-- A county with a three-character FIPS value and a NAME attribute. -/
def countyNamed : County := ⟨"123", [("NAME", "Square")], unitSquare⟩

/-- A state whose loaded dataset holds only `countyNamed`. -/
def sNamed : ServerState := ⟨[countyNamed], [countyNamed]⟩

/-! ## Helper lemmas -/

theorem orderedInsertKey_perm (x : County × ℚ) (l : List (County × ℚ)) :
    List.Perm (orderedInsertKey x l) (x :: l) := by
  induction l with
  | nil => simp [orderedInsertKey]
  | cons y ys ih =>
    by_cases h : x.2 ≤ y.2
    · simp [orderedInsertKey, h]
    · simp only [orderedInsertKey, if_neg h]
      exact (ih.cons y).trans (List.Perm.swap x y ys)

theorem sortByKey_perm (l : List (County × ℚ)) : List.Perm (sortByKey l) l := by
  induction l with
  | nil => simp [sortByKey]
  | cons x xs ih =>
    simp only [sortByKey]
    exact (orderedInsertKey_perm x (sortByKey xs)).trans (ih.cons x)

theorem correlate_core_nodup (counties : Dataset) (line : List Coord)
    (hnd : (counties.map County.fips).Nodup) : (correlate_core counties line).Nodup := by
  simp only [correlate_core]
  have hperm :
      List.Perm
        ((sortByKey ((counties.filter (fun c => lineIntersectsPoly line c.poly)).map
          (fun c => (c, lineProject line (ringCentroid c.poly))))).map (fun ck => ck.1.fips))
        (((counties.filter (fun c => lineIntersectsPoly line c.poly)).map
          (fun c => (c, lineProject line (ringCentroid c.poly)))).map (fun ck => ck.1.fips)) :=
    (sortByKey_perm _).map _
  have heq :
      (((counties.filter (fun c => lineIntersectsPoly line c.poly)).map
          (fun c => (c, lineProject line (ringCentroid c.poly)))).map (fun ck => ck.1.fips))
        = (counties.filter (fun c => lineIntersectsPoly line c.poly)).map County.fips := by
    simp [List.map_map, Function.comp]
  have hsub :
      List.Sublist ((counties.filter (fun c => lineIntersectsPoly line c.poly)).map County.fips)
        (counties.map County.fips) :=
    (List.filter_sublist counties).map County.fips
  have hfil : ((counties.filter (fun c => lineIntersectsPoly line c.poly)).map
      County.fips).Nodup := hsub.nodup hnd
  exact (hperm.nodup_iff).mpr (heq ▸ hfil)

theorem process_polyline_err (s : ServerState) (polyline : List Coord)
    (h : polyline.length = 1) :
    process_polyline s polyline = Except.error GeomError.single_point_linestring := by
  simp [process_polyline, mkLineString, h]

theorem process_polyline_run (s : ServerState) (polyline : List Coord)
    (h : polyline.length ≠ 1) :
    process_polyline s polyline =
      Except.ok (correlate_core s.counties_file (polyline.map (fun q => (q.1, q.2)))) := by
  simp [process_polyline, mkLineString, read_counties_file, h]

theorem process_single_polyline_run (s : ServerState) (polyline : List Coord)
    (h : polyline.length ≠ 1) :
    process_single_polyline s polyline =
      Except.ok (correlate_core s.counties_gdf (polyline.map (fun q => (q.1, q.2)))) := by
  simp [process_single_polyline, mkLineString, h]

theorem process_polylines_batch_run (s : ServerState) (ps : List (List Coord))
    (hlen : ∀ p ∈ ps, p.length ≠ 1) :
    process_polylines_batch s ps =
      Except.ok (ps.map (fun p =>
        correlate_core s.counties_gdf (p.map (fun q => (q.1, q.2))))) := by
  induction ps with
  | nil => rfl
  | cons p ps ih =>
    have h1 : p.length ≠ 1 := hlen p (by simp)
    have hrest := ih (fun q hq => hlen q (by simp [hq]))
    simp only [process_polylines_batch, process_single_polyline_run s p h1, hrest,
      List.map_cons]

theorem zfill_length_of_le (s : String) (h : s.length ≤ 5) : (zfill 5 s).length = 5 := by
  obtain ⟨l⟩ := s
  have hl : (String.mk l).length = l.length := rfl
  cases l with
  | nil => rfl
  | cons c rest =>
    rw [hl] at h
    by_cases hc : c = '+' ∨ c = '-'
    · have : (zfill 5 ⟨c :: rest⟩).length
          = (c :: (List.replicate (5 - (String.mk (c :: rest)).length) '0' ++ rest)).length := by
        simp only [zfill, if_pos hc]
        rfl
      rw [this]
      simp only [List.length_cons, List.length_append, List.length_replicate, hl]
      simp only [List.length_cons] at h ⊢
      omega
    · have : (zfill 5 ⟨c :: rest⟩).length
          = (List.replicate (5 - (String.mk (c :: rest)).length) '0' ++ c :: rest).length := by
        simp only [zfill, if_neg hc]
        rfl
      rw [this]
      simp only [List.length_cons, List.length_append, List.length_replicate, hl]
      simp only [List.length_cons] at h ⊢
      omega

/-! ## Claim theorems -/

/-- C1: the batch endpoint has no per-item exception handling, so a failure
while correlating one route aborts the whole batch instead of producing a
null entry at that index: on the batch [one-point route, valid route] the
handler returns the LineString construction error and no result sequence at
all, even though the second route on its own returns a result. -/
theorem c1_batch_aborts_on_single_route_failure :
    process_polylines_batch sEmpty [[(1, 2)], [(0, 0), (1, 1)]] =
      Except.error GeomError.single_point_linestring ∧
    process_polyline sEmpty [(0, 0), (1, 1)] = Except.ok [] :=
  ⟨by with_unfolding_all rfl, by with_unfolding_all rfl⟩

/-- C2 counterexample: a degenerate zero-length route (two identical points)
does not fail: `process_polyline` returns a FIPS list for it, refuting the
claim that correlate fails with a RouteError whenever the path has zero
length. -/
theorem c2_zero_length_route_returns_ok :
    process_polyline sNE [(1/2, 1/2), (1/2, 1/2)] = Except.ok ["31001"] := by
  with_unfolding_all rfl

/-- C2 amended: correlate fails exactly when the route has exactly one
point (the only input on which the LineString constructor raises); every
other route, including the empty route and zero-length routes, produces an
ordered FIPS sequence without raising. -/
theorem c2_correlate_fails_iff_exactly_one_point (s : ServerState)
    (polyline : List Coord) :
    (∃ out, process_polyline s polyline = Except.ok out) ↔ polyline.length ≠ 1 := by
  constructor
  · rintro ⟨out, hout⟩ h1
    rw [process_polyline_err s polyline h1] at hout
    exact absurd hout (by simp)
  · intro h
    exact ⟨_, process_polyline_run s polyline h⟩

/-- C3: the route path is built from (latitude, longitude) coordinate
pairs while the dataset geometries and the point locator use
(longitude, latitude): the point at latitude 1/2, longitude 21/2 lies on
the dataset-convention segment between the route vertices and locates
inside the county, yet correlating the route through that county returns
the empty sequence, so the two operations do not share one coordinate
convention. -/
theorem c3_route_axis_order_mismatch :
    onSegment (51/5, 1/2) (54/5, 1/2) (21/2, 1/2) = true ∧
    get_county_from_point sEast (1/2) (21/2) = some ("10001", none) ∧
    process_polyline sEast [(1/2, 51/5), (1/2, 54/5)] = Except.ok [] :=
  ⟨by with_unfolding_all rfl, by with_unfolding_all rfl, by with_unfolding_all rfl⟩

/-- C5 counterexample: the point (1, 1/2) lies on the ring of both adjacent
counties (their shared border), yet `get_county_from_point` resolves it to
neither of them, refuting the claim that a shared-border point resolves to
exactly one of the two counties. -/
theorem c5_shared_border_point_matches_neither :
    onRing countyLeft.poly (1, 1/2) = true ∧
    onRing countyRight.poly (1, 1/2) = true ∧
    get_county_from_point sBorder (1/2) 1 = none :=
  ⟨by with_unfolding_all rfl, by with_unfolding_all rfl, by with_unfolding_all rfl⟩

/-- C5 amended: the containment test accepts only interior points, so a
point lying on the boundary of every county that could contain it — in
particular a point exactly on a border shared by two adjacent counties and
outside all others — deterministically resolves to no county at all: never
both, never one. -/
theorem c5_border_point_locates_to_none (s : ServerState) (lat lng : ℚ)
    (h : ∀ c ∈ s.counties_gdf,
      onRing c.poly (lng, lat) = true ∨ evenOddInside c.poly (lng, lat) = false) :
    get_county_from_point s lat lng = none := by
  simp only [get_county_from_point]
  have hfil : s.counties_gdf.filter (fun c => polyContains c.poly (lng, lat)) = [] := by
    rw [List.filter_eq_nil_iff]
    intro c hc
    rcases h c hc with h1 | h1
    · simp [polyContains, h1]
    · simp [polyContains, h1]
  rw [hfil]

/-- C5 witness: the amended theorem applied to the shared-border fixture. -/
theorem c5_border_point_locates_to_none_witness :
    get_county_from_point sBorder (1/2) 1 = none :=
  c5_border_point_locates_to_none sBorder (1/2) 1 (by with_unfolding_all decide)

/-- C6: for every well-formed point, the point locator is total and returns
`none` (both fields null) exactly when no county polygon contains the
point; when it returns a FIPS string and the dataset FIPS values have at
most five characters (the dataset invariant), the returned FIPS is
zero-padded to exactly five characters. -/
theorem c6_locate_total_none_iff_no_contains_and_pads (s : ServerState)
    (lat lng : ℚ)
    (_hlat : -90 ≤ lat ∧ lat ≤ 90) (_hlng : -180 ≤ lng ∧ lng ≤ 180)
    (hfips : ∀ c ∈ s.counties_gdf, c.fips.length ≤ 5) :
    (get_county_from_point s lat lng = none ↔
      ∀ c ∈ s.counties_gdf, polyContains c.poly (lng, lat) = false) ∧
    (∀ f nm, get_county_from_point s lat lng = some (f, nm) → f.length = 5) := by
  simp only [get_county_from_point]
  cases hfil : s.counties_gdf.filter (fun c => polyContains c.poly (lng, lat)) with
  | nil =>
    refine ⟨⟨fun _ c hc => ?_, fun _ => rfl⟩, fun f nm hsome => ?_⟩
    · have := List.filter_eq_nil_iff.mp hfil c hc
      simpa using this
    · exact absurd hsome (by simp)
  | cons m ms =>
    have hm : m ∈ s.counties_gdf.filter (fun c => polyContains c.poly (lng, lat)) := by
      rw [hfil]; exact List.mem_cons_self m ms
    have hmem := List.mem_filter.mp hm
    refine ⟨⟨fun habs => ?_, fun hall => ?_⟩, fun f nm hsome => ?_⟩
    · exact absurd habs (by simp)
    · exact absurd (hall m hmem.1) (by simp [hmem.2])
    · have hf : f = zfill 5 m.fips := by
        have := hsome
        simp only [Option.some.injEq, Prod.mk.injEq] at this
        exact this.1.symm
      rw [hf]
      exact zfill_length_of_le m.fips (hfips m hmem.1)

/-- C6 witness: the theorem applied to a one-county dataset whose FIPS value
has three characters, at a point inside that county. -/
theorem c6_locate_witness :
    (get_county_from_point sNamed (1/2) (1/2) = none ↔
      ∀ c ∈ sNamed.counties_gdf, polyContains c.poly ((1:ℚ)/2, (1:ℚ)/2) = false) ∧
    (∀ f nm, get_county_from_point sNamed (1/2) (1/2) = some (f, nm) → f.length = 5) :=
  c6_locate_total_none_iff_no_contains_and_pads sNamed (1/2) (1/2)
    (by norm_num) (by norm_num) (by with_unfolding_all decide)

/-- C7: `process_polyline` re-reads the boundary shapefile on every request
instead of using the one-time loaded dataset: in a state whose import-time
snapshot holds one county but whose file has since been emptied, the route
endpoint answers from the new file content (no counties) while the batch
endpoint and the point locator answer from the import-time snapshot,
contradicting the claim that every operation reads the state left by the
one-time load. -/
theorem c7_process_polyline_reloads_per_request :
    process_polyline sStale [(1/2, 1/5), (1/2, 4/5)] = Except.ok [] ∧
    process_polylines_batch sStale [[(1/2, 1/5), (1/2, 4/5)]] = Except.ok [["06075"]] ∧
    get_county_from_point sStale (1/2) (1/2) = some ("06075", none) :=
  ⟨by with_unfolding_all rfl, by with_unfolding_all rfl, by with_unfolding_all rfl⟩

/-- C8: when the per-request file content agrees with the loaded dataset
(the unchanged-dataset reading of "the same dataset") and every route has
the data-model minimum of at least two points (so none has exactly one),
the batch endpoint returns exactly one result per input route, in input
order, and each result is exactly what the single-route endpoint returns
for that route. -/
theorem c8_batch_is_per_item_single (s : ServerState) (ps : List (List Coord))
    (hds : s.counties_file = s.counties_gdf)
    (hlen : ∀ p ∈ ps, p.length ≠ 1) :
    process_polylines_batch s ps =
      Except.ok (ps.map (fun p =>
        correlate_core s.counties_gdf (p.map (fun q => (q.1, q.2))))) ∧
    (ps.map (fun p =>
      correlate_core s.counties_gdf (p.map (fun q => (q.1, q.2))))).length = ps.length ∧
    ∀ p ∈ ps, process_polyline s p =
      Except.ok (correlate_core s.counties_gdf (p.map (fun q => (q.1, q.2)))) := by
  refine ⟨process_polylines_batch_run s ps hlen, by simp, fun p hp => ?_⟩
  have := process_polyline_run s p (hlen p hp)
  rw [hds] at this
  exact this

/-- C8 witness: the theorem applied to a singleton batch over a state with
matching file and loaded dataset. -/
theorem c8_batch_is_per_item_single_witness :
    process_polylines_batch sEmpty [[(0, 0), (2, 3)]] =
      Except.ok ([[(0, 0), (2, 3)]].map (fun p =>
        correlate_core sEmpty.counties_gdf (p.map (fun q => (q.1, q.2))))) ∧
    ([[(0, 0), (2, 3)]].map (fun p =>
      correlate_core sEmpty.counties_gdf (p.map (fun q => (q.1, q.2))))).length
        = [[((0:ℚ), (0:ℚ)), ((2:ℚ), (3:ℚ))]].length ∧
    ∀ p ∈ [[((0:ℚ), (0:ℚ)), ((2:ℚ), (3:ℚ))]], process_polyline sEmpty p =
      Except.ok (correlate_core sEmpty.counties_gdf (p.map (fun q => (q.1, q.2)))) :=
  c8_batch_is_per_item_single sEmpty [[(0, 0), (2, 3)]] rfl
    (by with_unfolding_all decide)

/-- C9: when no two counties of the dataset read at request time share a
FIPS code, the FIPS sequence returned by correlate contains each code at
most once. -/
theorem c9_correlate_fips_nodup (s : ServerState) (polyline : List Coord)
    (out : List String)
    (hnd : (s.counties_file.map County.fips).Nodup)
    (hok : process_polyline s polyline = Except.ok out) : out.Nodup := by
  by_cases h1 : polyline.length = 1
  · rw [process_polyline_err s polyline h1] at hok
    exact absurd hok (by simp)
  · rw [process_polyline_run s polyline h1] at hok
    have hout : out = correlate_core s.counties_file (polyline.map (fun q => (q.1, q.2))) := by
      simpa using hok.symm
    rw [hout]
    exact correlate_core_nodup _ _ hnd

/-- C9 witness: the theorem applied to a one-county dataset and a route
crossing that county. -/
theorem c9_correlate_fips_nodup_witness :
    ((sNE.counties_file.map County.fips).Nodup) ∧ (["31001"] : List String).Nodup :=
  ⟨by with_unfolding_all decide,
   c9_correlate_fips_nodup sNE [(1/2, 1/5), (1/2, 4/5)] ["31001"]
     (by with_unfolding_all decide) (by with_unfolding_all rfl)⟩

/-- C10: the three operations are functions of the process state and their
input alone, so two calls with identical input against an unchanged state
return identical output. -/
theorem c10_repeated_calls_identical (s1 s2 : ServerState) (polyline : List Coord)
    (ps : List (List Coord)) (lat lng : ℚ) (h : s1 = s2) :
    process_polyline s1 polyline = process_polyline s2 polyline ∧
    process_polylines_batch s1 ps = process_polylines_batch s2 ps ∧
    get_county_from_point s1 lat lng = get_county_from_point s2 lat lng := by
  subst h
  exact ⟨rfl, rfl, rfl⟩

/-- C10 witness: the theorem applied at a concrete state and inputs. -/
theorem c10_repeated_calls_identical_witness :
    process_polyline sNE [(0, 0), (1, 1)] = process_polyline sNE [(0, 0), (1, 1)] ∧
    process_polylines_batch sNE [[(0, 0), (1, 1)]] = process_polylines_batch sNE [[(0, 0), (1, 1)]] ∧
    get_county_from_point sNE 0 0 = get_county_from_point sNE 0 0 :=
  c10_repeated_calls_identical sNE sNE [(0, 0), (1, 1)] [[(0, 0), (1, 1)]] 0 0 rfl

end GravlRoute
